import Mathlib

/-!
Shallow embedding of the x2node-ws web-service library core
(src/index.js) together with spec-modelled parts whose source files
(lib/service-response.js, lib/application.js, lib/basic-authenticator.js,
lib/caching-actors-registry.js) are not present under src/.

Byte buffers are List Nat (each element a byte value), JavaScript strings
are Lean String, and JavaScript entity values are the inductive JsVal.
-/

/-- A JavaScript value as produced or consumed by the library: strings,
numbers, booleans, null, undefined and plain objects (field lists). -/
inductive JsVal where
  | str (s : String)
  | num (n : Int)
  | boolean (b : Bool)
  | nullV
  | undefV
  | obj (fields : List (String × JsVal))

/-- Modelled from the spec: the ServiceResponse value from
lib/service-response.js (not under src/): an immutable numeric status set
at construction, a header mapping and an entity. -/
structure ServiceResponse where
  statusCode : Int
  headers : List (String × String) := []
  entity : Option JsVal := none

/-- Modelled from the spec: the ServiceResponse setHeader operation
(later values for the same name overwrite); it never touches the status. -/
def ServiceResponse.setHeader (r : ServiceResponse) (name value : String) : ServiceResponse :=
  { r with headers := (r.headers.filter (fun p => p.1 ≠ name)) ++ [(name, value)] }

/-- Modelled from the spec: the ServiceResponse setEntity operation;
it never touches the status. -/
def ServiceResponse.setEntity (r : ServiceResponse) (e : JsVal) : ServiceResponse :=
  { r with entity := some e }

/-- Modelled from the spec: the ServiceResponse constructor from
lib/service-response.js (not under src/). Construction requires a valid
numeric HTTP status code in the range 100 to 599; an invalid code is a
construction failure (a thrown error in JavaScript). -/
def mkServiceResponse (statusCode : Int) : Except String ServiceResponse :=
  if 100 ≤ statusCode ∧ statusCode ≤ 599 then
    Except.ok { statusCode := statusCode }
  else
    Except.error "invalid HTTP response status code"

/-- Embedding of exports.createResponse from src/index.js: it returns
new ServiceResponse(statusCode). -/
def createResponse (statusCode : Int) : Except String ServiceResponse :=
  mkServiceResponse statusCode

/-- A JavaScript runtime value as tested by isResponse: either an object
constructed by the ServiceResponse constructor (an instanceof match) or
any other value, including a plain object carrying look-alike fields. -/
inductive JsAny where
  | respVal (r : ServiceResponse)
  | objVal (fields : List (String × JsVal))
  | strVal (s : String)
  | numVal (n : Int)
  | boolVal (b : Bool)
  | nullVal
  | undefVal

/-- Embedding of exports.isResponse from src/index.js: the test
`obj instanceof ServiceResponse`, true exactly for values built by the
ServiceResponse constructor. -/
def isResponse : JsAny → Bool
  | .respVal _ => true
  | _ => false

/-! ### Charset extraction: the regular expression of TEXT_DESERIALIZER

The source runs `/;\s*charset=(?:"([^\x22]+)"|([^\x22][^;]*))/i.exec(ctype)`
and takes `m[1] || m[2]`. We embed the regex as an executable scanner:
`exec` tries the pattern at each start position, leftmost match first. -/

/-- The JavaScript regex whitespace class (the characters matched by the
backslash-s atom) restricted to the forms that occur in header strings. -/
def isJsSpace (c : Char) : Bool :=
  c == ' ' || c == '\t' || c == '\n' || c == '\r' ||
  c == Char.ofNat 0x0B || c == Char.ofNat 0x0C ||
  c == Char.ofNat 0xA0 || c == Char.ofNat 0xFEFF

/-- Case-insensitive literal match (the regex has the i flag): consumes
the literal from the front of the input and returns the rest. -/
def matchLitCI : List Char → List Char → Option (List Char)
  | [], s => some s
  | _ :: _, [] => none
  | p :: ps, c :: cs => if p.toLower = c.toLower then matchLitCI ps cs else none

/-- The characters of the literal charset= inside the regex. -/
def charsetLit : List Char := ['c', 'h', 'a', 'r', 's', 'e', 't', '=']

/-- One attempt of the charset regex at a fixed start position: a literal
semicolon, then any run of whitespace, then the literal charset= (case
insensitively), then either a quoted nonempty group of non-quote
characters followed by the closing quote, or an unquoted group of one
non-quote character followed by the maximal run of non-semicolon
characters. Returns the captured group. -/
def tryCharsetAt : List Char → Option String
  | [] => none
  | c :: rest =>
    if c = ';' then
      match matchLitCI charsetLit (rest.dropWhile isJsSpace) with
      | none => none
      | some rest2 =>
        match rest2 with
        | [] => none
        | c2 :: rest3 =>
          if c2 = '"' then
            let grp := rest3.takeWhile (fun c3 => c3 ≠ '"')
            if grp.isEmpty || (rest3.dropWhile (fun c3 => c3 ≠ '"')).isEmpty then none
            else some (String.mk grp)
          else some (String.mk (c2 :: rest3.takeWhile (fun c3 => c3 ≠ ';')))
    else none

/-- The exec call of the charset regex: try the pattern at every start
position from left to right and return the first captured charset. -/
def execCharset : List Char → Option String
  | [] => none
  | c :: rest =>
    match tryCharsetAt (c :: rest) with
    | some r => some r
    | none => execCharset rest

/-- Embedding of CHARSETS_MAP from src/index.js as its property lookup:
the charset conversion object from MIME names to Node Buffer encoding
names, read as CHARSETS_MAP[key]. -/
def CHARSETS_MAP (key : String) : Option String :=
  if key = "US-ASCII" then some "ascii"
  else if key = "ISO-8859-1" then some "latin1"
  else if key = "UTF-8" then some "utf8"
  else if key = "UTF-16LE" then some "utf16le"
  else none

/-- JavaScript String.prototype.toUpperCase restricted to the ASCII
letters that can hit the map keys. -/
def jsToUpper (s : String) : String :=
  String.mk (s.toList.map Char.toUpper)

/-- The encoding-name resolution of TEXT_DESERIALIZER:
CHARSETS_MAP[charset.toUpperCase()] || charset. -/
def resolveEncodingName (charset : String) : String :=
  (CHARSETS_MAP (jsToUpper charset)).getD charset

/-! ### Node Buffer.prototype.toString (the decoder the deserializer calls)

The deserializer delegates decoding to the platform Buffer. We embed the
encodings Buffer recognizes; an unrecognized encoding name makes toString
throw a TypeError whose message is "Unknown encoding: " followed by the
requested name. -/

/-- The Unicode replacement character emitted for malformed UTF-8. -/
def replChar : Char := Char.ofNat 0xFFFD

/-- WHATWG UTF-8 decoding of a byte list, as Buffer.toString with the
utf8 encoding performs it: malformed sequences become the replacement
character and decoding resumes at the offending byte. -/
def utf8DecodeList : List Nat → List Char
  | [] => []
  | b :: rest =>
    if b ≤ 0x7F then Char.ofNat b :: utf8DecodeList rest
    else if 0xC2 ≤ b ∧ b ≤ 0xDF then
      match rest with
      | [] => [replChar]
      | b2 :: rest2 =>
        if 0x80 ≤ b2 ∧ b2 ≤ 0xBF then
          Char.ofNat ((b - 0xC0) * 0x40 + (b2 - 0x80)) :: utf8DecodeList rest2
        else replChar :: utf8DecodeList (b2 :: rest2)
    else if 0xE0 ≤ b ∧ b ≤ 0xEF then
      match rest with
      | [] => [replChar]
      | b2 :: rest2 =>
        if (if b = 0xE0 then 0xA0 else 0x80) ≤ b2 ∧ b2 ≤ (if b = 0xED then 0x9F else 0xBF) then
          match rest2 with
          | [] => [replChar]
          | b3 :: rest3 =>
            if 0x80 ≤ b3 ∧ b3 ≤ 0xBF then
              Char.ofNat ((b - 0xE0) * 0x1000 + (b2 - 0x80) * 0x40 + (b3 - 0x80)) ::
                utf8DecodeList rest3
            else replChar :: utf8DecodeList (b3 :: rest3)
        else replChar :: utf8DecodeList (b2 :: rest2)
    else if 0xF0 ≤ b ∧ b ≤ 0xF4 then
      match rest with
      | [] => [replChar]
      | b2 :: rest2 =>
        if (if b = 0xF0 then 0x90 else 0x80) ≤ b2 ∧ b2 ≤ (if b = 0xF4 then 0x8F else 0xBF) then
          match rest2 with
          | [] => [replChar]
          | b3 :: rest3 =>
            if 0x80 ≤ b3 ∧ b3 ≤ 0xBF then
              match rest3 with
              | [] => [replChar]
              | b4 :: rest4 =>
                if 0x80 ≤ b4 ∧ b4 ≤ 0xBF then
                  Char.ofNat ((b - 0xF0) * 0x40000 + (b2 - 0x80) * 0x1000 +
                      (b3 - 0x80) * 0x40 + (b4 - 0x80)) :: utf8DecodeList rest4
                else replChar :: utf8DecodeList (b4 :: rest4)
            else replChar :: utf8DecodeList (b3 :: rest3)
        else replChar :: utf8DecodeList (b2 :: rest2)
    else replChar :: utf8DecodeList rest

/-- The ascii encoding of Buffer.toString: each byte masked to 7 bits. -/
def asciiDecodeList (data : List Nat) : List Char :=
  data.map (fun b => Char.ofNat (b % 0x80))

/-- The latin1 encoding of Buffer.toString: each byte is a code point. -/
def latin1DecodeList (data : List Nat) : List Char :=
  data.map (fun b => Char.ofNat (b % 0x100))

/-- Little-endian byte pairs to UTF-16 code units; a trailing odd byte is
dropped, as Buffer.toString with utf16le does. -/
def utf16leUnits : List Nat → List Nat
  | b1 :: b2 :: rest => (b1 % 0x100 + (b2 % 0x100) * 0x100) :: utf16leUnits rest
  | _ => []

/-- UTF-16 code units to characters: surrogate pairs combine; a lone
surrogate becomes the replacement character. -/
def utf16Chars : List Nat → List Char
  | [] => []
  | u :: rest =>
    if u < 0xD800 ∨ 0xDFFF < u then Char.ofNat u :: utf16Chars rest
    else if u ≤ 0xDBFF then
      match rest with
      | u2 :: rest2 =>
        if 0xDC00 ≤ u2 ∧ u2 ≤ 0xDFFF then
          Char.ofNat (0x10000 + (u - 0xD800) * 0x400 + (u2 - 0xDC00)) :: utf16Chars rest2
        else replChar :: utf16Chars (u2 :: rest2)
      | [] => [replChar]
    else replChar :: utf16Chars rest

/-- The utf16le encoding of Buffer.toString. -/
def utf16leDecodeList (data : List Nat) : List Char :=
  utf16Chars (utf16leUnits data)

/-- Lowercase hexadecimal digit for a value below sixteen. -/
def hexDigit (n : Nat) : Char :=
  "0123456789abcdef".toList.getD n '0'

/-- The hex encoding of Buffer.toString: two lowercase digits per byte. -/
def hexEncodeList (data : List Nat) : List Char :=
  data.foldr (fun b acc => hexDigit (b % 0x100 / 16) :: hexDigit (b % 16) :: acc) []

/-- Character of the standard base64 alphabet at an index below 64. -/
def b64Digit (n : Nat) : Char :=
  "ABCDEFGHIJKLMNOPQRSTUVWXYZabcdefghijklmnopqrstuvwxyz0123456789+/".toList.getD n 'A'

/-- The base64 encoding of Buffer.toString with padding. -/
def base64EncodeList : List Nat → List Char
  | b1 :: b2 :: b3 :: rest =>
    let n := (b1 % 0x100) * 0x10000 + (b2 % 0x100) * 0x100 + b3 % 0x100
    b64Digit (n / 0x40000) :: b64Digit (n / 0x1000 % 0x40) ::
      b64Digit (n / 0x40 % 0x40) :: b64Digit (n % 0x40) :: base64EncodeList rest
  | [b1, b2] =>
    let n := (b1 % 0x100) * 0x10000 + (b2 % 0x100) * 0x100
    [b64Digit (n / 0x40000), b64Digit (n / 0x1000 % 0x40), b64Digit (n / 0x40 % 0x40), '=']
  | [b1] =>
    let n := (b1 % 0x100) * 0x10000
    [b64Digit (n / 0x40000), b64Digit (n / 0x1000 % 0x40), '=', '=']
  | [] => []

/-- JavaScript String.prototype.toLowerCase restricted to ASCII letters,
as used by encoding-name normalization. -/
def jsToLower (s : String) : String :=
  String.mk (s.toList.map Char.toLower)

/-- The encoding names Buffer recognizes, normalized to a canonical name;
any other name is unknown and makes toString throw. -/
def normalizeEncoding (enc : String) : Option String :=
  let e := jsToLower enc
  if e = "utf8" ∨ e = "utf-8" then some "utf8"
  else if e = "ascii" then some "ascii"
  else if e = "latin1" ∨ e = "binary" then some "latin1"
  else if e = "utf16le" ∨ e = "utf-16le" ∨ e = "ucs2" ∨ e = "ucs-2" then some "utf16le"
  else if e = "base64" then some "base64"
  else if e = "base64url" then some "base64url"
  else if e = "hex" then some "hex"
  else none

/-- The base64url encoding of Buffer.toString: the url-safe alphabet and
no padding. -/
def base64urlEncodeList (data : List Nat) : List Char :=
  ((base64EncodeList data).filter (fun c => c ≠ '=')).map
    (fun c => if c = '+' then '-' else if c = '/' then '_' else c)

/-- Buffer.prototype.toString: decodes with a recognized encoding, throws
(an error result carrying the TypeError message) for an unknown one. -/
def bufferToString (enc : String) (data : List Nat) : Except String String :=
  match normalizeEncoding enc with
  | none => Except.error ("Unknown encoding: " ++ enc)
  | some "utf8" => Except.ok (String.mk (utf8DecodeList data))
  | some "ascii" => Except.ok (String.mk (asciiDecodeList data))
  | some "latin1" => Except.ok (String.mk (latin1DecodeList data))
  | some "utf16le" => Except.ok (String.mk (utf16leDecodeList data))
  | some "base64" => Except.ok (String.mk (base64EncodeList data))
  | some "base64url" => Except.ok (String.mk (base64urlEncodeList data))
  | some _ => Except.ok (String.mk (hexEncodeList data))

/-- Embedding of exports.TEXT_DESERIALIZER from src/index.js: extract the
charset from the content-type header with the charset regex (default
UTF-8), resolve it through CHARSETS_MAP (falling back to the raw name),
decode the bytes with Buffer.toString, and wrap the text in an object; a
decoder failure is caught and rethrown as a 415 ServiceResponse with the
structured error entity. -/
def TEXT_DESERIALIZER (data : List Nat) (ctype : String) : Except ServiceResponse JsVal :=
  let m := execCharset ctype.toList
  let charset := m.getD "UTF-8"
  match bufferToString (resolveEncodingName charset) data with
  | Except.ok text => Except.ok (JsVal.obj [("text", JsVal.str text)])
  | Except.error msg =>
    Except.error (ServiceResponse.setEntity { statusCode := 415 }
      (JsVal.obj [("errorCode", JsVal.str "X2-415"), ("errorMessage", JsVal.str msg)]))

/-! ### Spec-modelled pipeline orchestration

lib/application.js is not under src/, so the stage orchestration is
modelled from the spec: each stage yields a discriminated result
(continue with a value, abort with a raised ServiceResponse, or an
internal failure caught at the stage boundary), handled exhaustively. -/

/-- An incoming HTTP request as the pipeline stages see it. -/
structure Request where
  contentType : String
  body : List Nat
  headers : List (String × String) := []

/-- Modelled from the spec: the outcome of one pipeline stage — continue
with a value, abort with a raised ServiceResponse, or any other failure
(carrying its server-side diagnostic detail). -/
inductive StageResult (α : Type) where
  | next (a : α)
  | raisedResp (r : ServiceResponse)
  | failed (detail : String)

/-- A resolved caller identity; its identity key is derived from the
credentials that produced it. -/
structure Actor where
  id : String
deriving Repr, DecidableEq

/-- Modelled from the spec: the three pipeline stages that can raise —
the body deserializer, the authenticator chain and the handler — as run
by lib/application.js (not under src/) for one request. -/
structure PipelineStages where
  deserialize : Request → StageResult JsVal
  authenticate : Request → JsVal → StageResult (Option Actor)
  handle : Request → JsVal → Option Actor → StageResult ServiceResponse

/-- Modelled from the spec: the generic 500 response an uncaught stage
failure is normalized to; its body never carries the failure detail. -/
def INTERNAL_SERVER_ERROR : ServiceResponse :=
  { statusCode := 500,
    entity := some (JsVal.obj
      [("errorCode", JsVal.str "X2-500"),
       ("errorMessage", JsVal.str "Internal server error.")]) }

/-- Modelled from the spec: lib/application.js (not under src/) drives a
request through deserializer, authenticator and handler; a raised
ServiceResponse from any stage aborts the remaining stages and is emitted
as-is, any other failure is normalized at the stage boundary to the
generic 500 response. -/
def runPipeline (st : PipelineStages) (req : Request) : ServiceResponse :=
  match st.deserialize req with
  | StageResult.raisedResp r => r
  | StageResult.failed _ => INTERNAL_SERVER_ERROR
  | StageResult.next entity =>
    match st.authenticate req entity with
    | StageResult.raisedResp r => r
    | StageResult.failed _ => INTERNAL_SERVER_ERROR
    | StageResult.next actor =>
      match st.handle req entity actor with
      | StageResult.raisedResp r => r
      | StageResult.failed _ => INTERNAL_SERVER_ERROR
      | StageResult.next resp => resp

/-! ### Spec-modelled authenticator chain

lib/basic-authenticator.js and the chain driver are not under src/; the
chain is modelled from the spec. -/

/-- Modelled from the spec: one authentication attempt yields
not-applicable (no matching credential form), a resolved Actor, or a
rejection raised as a 401/403 ServiceResponse. -/
inductive AuthResult where
  | notApplicable
  | resolved (a : Actor)
  | rejected (r : ServiceResponse)

/-- Modelled from the spec: the ordered authenticator chain — advance on
not-applicable, short-circuit on the first resolved Actor, abort on a
rejection; an exhausted chain means the request proceeds as anonymous. -/
def runAuthChain : List (Request → AuthResult) → Request → Except ServiceResponse (Option Actor)
  | [], _ => Except.ok none
  | auth :: rest, req =>
    match auth req with
    | AuthResult.notApplicable => runAuthChain rest req
    | AuthResult.resolved a => Except.ok (some a)
    | AuthResult.rejected r => Except.error r

/-! ### Spec-modelled CachingActorsRegistry

lib/caching-actors-registry.js is not under src/; the registry is
modelled from the spec: per-key cache entries with lazy expiration
checked at lookup time, and single-flight coalescing through a pending
marker counting the callers awaiting one verification. Cooperative
single-threaded interleaving is modelled by explicit state passing. -/

/-- Modelled from the spec: the per-key slot of the registry — either a
cached entry (actor plus expiration instant) or a pending marker
counting the callers awaiting the single in-flight verification. -/
inductive CacheSlot where
  | pendingSlot (waiters : Nat)
  | cachedSlot (actor : Actor) (expiresAt : Nat)
deriving Repr, DecidableEq

/-- Modelled from the spec: the registry state — the slot map keyed by
normalized credential string, and an instrumentation count of underlying
verification calls issued per key. -/
structure RegState where
  slot : String → Option CacheSlot
  verifyCalls : String → Nat

/-- Modelled from the spec: what one lookup observes — an immediate hit
from a fresh cached entry, joining an already pending verification, or
being the caller that starts the single verification. -/
inductive LookupOutcome where
  | hit (a : Actor)
  | joined
  | started
deriving Repr, DecidableEq

/-- Modelled from the spec: one cache lookup at the given instant. A
cached entry is returned only while now is before its expiration;
an expired entry is evicted lazily and the lookup starts a fresh
verification; a pending marker is joined; a missing key installs the
pending marker and issues the one verification call. -/
def lookupStep (s : RegState) (k : String) (now : Nat) : RegState × LookupOutcome :=
  match s.slot k with
  | some (CacheSlot.cachedSlot a exp) =>
    if now < exp then (s, LookupOutcome.hit a)
    else
      ({ slot := fun k2 => if k2 = k then some (CacheSlot.pendingSlot 1) else s.slot k2,
         verifyCalls := fun k2 => if k2 = k then s.verifyCalls k2 + 1 else s.verifyCalls k2 },
       LookupOutcome.started)
  | some (CacheSlot.pendingSlot w) =>
    ({ s with slot := fun k2 => if k2 = k then some (CacheSlot.pendingSlot (w + 1)) else s.slot k2 },
     LookupOutcome.joined)
  | none =>
    ({ slot := fun k2 => if k2 = k then some (CacheSlot.pendingSlot 1) else s.slot k2,
       verifyCalls := fun k2 => if k2 = k then s.verifyCalls k2 + 1 else s.verifyCalls k2 },
     LookupOutcome.started)

/-- Iterated lookups for one key at one instant, modelling n concurrent
callers interleaved before the verification resolves. -/
def lookupN (s : RegState) (k : String) (now : Nat) : Nat → RegState
  | 0 => s
  | n + 1 => (lookupStep (lookupN s k now n) k now).1

/-- Modelled from the spec: a successful verification resolves the
pending marker — every waiting caller receives the one resolved Actor and
the entry is cached with its expiration instant. -/
def resolveStep (s : RegState) (k : String) (a : Actor) (exp : Nat) :
    RegState × List Actor :=
  match s.slot k with
  | some (CacheSlot.pendingSlot w) =>
    ({ s with slot := fun k2 => if k2 = k then some (CacheSlot.cachedSlot a exp) else s.slot k2 },
     List.replicate w a)
  | _ => (s, [])

/-- Modelled from the spec: a failed verification resolves the pending
marker — every waiting caller receives the same rejection and nothing is
cached for the key. -/
def rejectStep (s : RegState) (k : String) (r : ServiceResponse) :
    RegState × List ServiceResponse :=
  match s.slot k with
  | some (CacheSlot.pendingSlot w) =>
    ({ s with slot := fun k2 => if k2 = k then none else s.slot k2 },
     List.replicate w r)
  | _ => (s, [])

/-! ### Demo values for the closed witnesses -/

def demoRequest : Request := { contentType := "text/plain", body := [] }

def demoRaisingStages : PipelineStages :=
  { deserialize := fun _ => StageResult.raisedResp { statusCode := 418 },
    authenticate := fun _ _ => StageResult.next none,
    handle := fun _ _ _ => StageResult.next { statusCode := 200 } }

def demoAuthNA : Request → AuthResult := fun _ => AuthResult.notApplicable

def demoAuthResolve : Request → AuthResult := fun _ => AuthResult.resolved { id := "actor-1" }

def demoCachedState : RegState :=
  { slot := fun k2 => if k2 = "alice" then
      some (CacheSlot.cachedSlot { id := "actor-1" } 10) else none,
    verifyCalls := fun _ => 0 }

def demoEmptyState : RegState :=
  { slot := fun _ => none, verifyCalls := fun _ => 0 }

/-! ### Helper lemmas about the charset regex -/

theorem matchLitCI_self : ∀ (p t : List Char), matchLitCI p (p ++ t) = some t
  | [], _ => rfl
  | c :: ps, t => by
    simp only [List.cons_append, matchLitCI, if_pos rfl]
    exact matchLitCI_self ps t

theorem takeWhile_all (p : Char → Bool) :
    ∀ l : List Char, (∀ a ∈ l, p a = true) → l.takeWhile p = l
  | [], _ => rfl
  | c :: l, h => by
    rw [List.takeWhile_cons, if_pos (h c (List.mem_cons_self c l))]
    rw [takeWhile_all p l (fun a ha => h a (List.mem_cons_of_mem c ha))]

theorem takeWhile_append_stop (p : Char → Bool) (c : Char) (l2 : List Char) (hc : p c = false) :
    ∀ l : List Char, (∀ a ∈ l, p a = true) → ((l ++ c :: l2).takeWhile p) = l
  | [], _ => by simp [List.takeWhile_cons, hc]
  | d :: l, h => by
    rw [List.cons_append, List.takeWhile_cons, if_pos (h d (List.mem_cons_self d l))]
    rw [takeWhile_append_stop p c l2 hc l (fun a ha => h a (List.mem_cons_of_mem d ha))]

theorem dropWhile_append_stop (p : Char → Bool) (c : Char) (l2 : List Char) (hc : p c = false) :
    ∀ l : List Char, (∀ a ∈ l, p a = true) → ((l ++ c :: l2).dropWhile p) = c :: l2
  | [], _ => by simp [List.dropWhile_cons, hc]
  | d :: l, h => by
    rw [List.cons_append, List.dropWhile_cons, if_pos (h d (List.mem_cons_self d l))]
    exact dropWhile_append_stop p c l2 hc l (fun a ha => h a (List.mem_cons_of_mem d ha))

theorem tryCharsetAt_not_semi (c : Char) (t : List Char) (h : c ≠ ';') :
    tryCharsetAt (c :: t) = none := by
  simp [tryCharsetAt, h]

theorem tryCharsetAt_unquoted (nl : List Char) (hne : nl ≠ [])
    (hq : '"' ∉ nl) (hs : ';' ∉ nl) :
    tryCharsetAt (';' :: (charsetLit ++ nl)) = some (String.mk nl) := by
  cases nl with
  | nil => exact absurd rfl hne
  | cons c2 rest3 =>
    have hc2 : c2 ≠ '"' := fun e => hq (e ▸ List.mem_cons_self c2 rest3)
    have hdw : (charsetLit ++ c2 :: rest3).dropWhile isJsSpace = charsetLit ++ c2 :: rest3 := by
      rw [charsetLit, List.cons_append, List.dropWhile_cons, if_neg (by decide)]
    have htk : rest3.takeWhile (fun c3 => !decide (c3 = ';')) = rest3 := by
      apply takeWhile_all
      intro a ha
      simp only [Bool.not_eq_true', decide_eq_false_iff_not]
      exact fun e => hs (e ▸ List.mem_cons_of_mem c2 ha)
    simp [tryCharsetAt, hdw, matchLitCI_self, hc2, htk]

theorem tryCharsetAt_quoted (nl : List Char) (hne : nl ≠ []) (hq : '"' ∉ nl) :
    tryCharsetAt (';' :: (charsetLit ++ '"' :: (nl ++ ['"']))) = some (String.mk nl) := by
  have hall : ∀ a ∈ nl, (!decide (a = '"')) = true := by
    intro a ha
    simp only [Bool.not_eq_true', decide_eq_false_iff_not]
    intro e
    rw [e] at ha
    exact hq ha
  have hdw : (charsetLit ++ '"' :: (nl ++ ['"'])).dropWhile isJsSpace =
      charsetLit ++ '"' :: (nl ++ ['"']) := by
    rw [charsetLit, List.cons_append, List.dropWhile_cons, if_neg (by decide)]
  have htk : (nl ++ ['"']).takeWhile (fun c3 => !decide (c3 = '"')) = nl :=
    takeWhile_append_stop _ '"' [] (by decide) nl hall
  have hdw2 : (nl ++ ['"']).dropWhile (fun c3 => !decide (c3 = '"')) = ['"'] :=
    dropWhile_append_stop _ '"' [] (by decide) nl hall
  have hlne : nl.isEmpty = false := by
    cases nl with
    | nil => exact absurd rfl hne
    | cons a l => rfl
  simp [tryCharsetAt, hdw, matchLitCI_self, htk, hdw2, hlne]

theorem execCharset_skip : ∀ (bl rest : List Char), (';' ∉ bl) →
    execCharset (bl ++ rest) = execCharset rest
  | [], _, _ => rfl
  | c :: bl, rest, h => by
    have hc : c ≠ ';' := fun e => h (e ▸ List.mem_cons_self c bl)
    rw [List.cons_append]
    show (match tryCharsetAt (c :: (bl ++ rest)) with
      | some r => some r
      | none => execCharset (bl ++ rest)) = execCharset rest
    rw [tryCharsetAt_not_semi c _ hc]
    exact execCharset_skip bl rest (fun hm => h (List.mem_cons_of_mem c hm))

theorem execCharset_cons_found (t : List Char) (r : String)
    (h : tryCharsetAt (';' :: t) = some r) : execCharset (';' :: t) = some r := by
  show (match tryCharsetAt (';' :: t) with
    | some r => some r
    | none => execCharset t) = some r
  rw [h]

/-- Helper for claim C7: after n interleaved lookups of an initially
unresolved key, the key holds a pending marker counting the n callers and
exactly one verification call has been issued for it. -/
theorem lookupN_pending (s : RegState) (k : String) (now : Nat) (h : s.slot k = none) :
    ∀ n, 1 ≤ n →
      (lookupN s k now n).slot k = some (CacheSlot.pendingSlot n) ∧
      (lookupN s k now n).verifyCalls k = s.verifyCalls k + 1 := by
  intro n hn
  induction n with
  | zero => omega
  | succ m ih =>
    cases Nat.eq_or_lt_of_le hn with
    | inl h1 =>
      have hm : m = 0 := by omega
      subst hm
      simp [lookupN, lookupStep, h]
    | inr h1 =>
      have hm : 1 ≤ m := by omega
      obtain ⟨ihs, ihc⟩ := ih hm
      constructor
      · simp [lookupN, lookupStep, ihs]
      · simp [lookupN, lookupStep, ihs, ihc]

/-- Helper for claim C8: an authenticator chain in which every attempt
is not-applicable lets the request proceed as anonymous. -/
theorem runAuthChain_all_na : ∀ (chain : List (Request → AuthResult)) (req : Request),
    (∀ f ∈ chain, f req = AuthResult.notApplicable) →
    runAuthChain chain req = Except.ok none
  | [], _, _ => rfl
  | f :: rest, req, h => by
    show (match f req with
      | AuthResult.notApplicable => runAuthChain rest req
      | AuthResult.resolved a => Except.ok (some a)
      | AuthResult.rejected r => Except.error r) = Except.ok none
    rw [h f (List.mem_cons_self f rest)]
    exact runAuthChain_all_na rest req (fun g hg => h g (List.mem_cons_of_mem f hg))


/-- Claim C1: decoding the UTF-8 bytes of "café" with content-type
"text/plain; charset=UTF-8" through the reference text deserializer
yields the parsed entity with text "café". -/
theorem C1_text_deserializer_utf8_cafe :
    TEXT_DESERIALIZER [0x63, 0x61, 0x66, 0xC3, 0xA9] "text/plain; charset=UTF-8" =
      Except.ok (JsVal.obj [("text", JsVal.str "café")]) := rfl

/-- Claim C2: for every input byte buffer, the reference text
deserializer with content-type "text/plain; charset=BOGUS" raises a
ServiceResponse with status 415 whose entity carries errorCode X2-415 and
the decoder's error message. -/
theorem C2_text_deserializer_bogus_charset (data : List Nat) :
    ∃ r, TEXT_DESERIALIZER data "text/plain; charset=BOGUS" = Except.error r ∧
      r.statusCode = 415 ∧
      r.entity = some (JsVal.obj
        [("errorCode", JsVal.str "X2-415"),
         ("errorMessage", JsVal.str "Unknown encoding: BOGUS")]) :=
  ⟨_, rfl, rfl, rfl⟩

/-- Claim C3: the reference text deserializer extracts the charset
parameter of the content-type header in quoted and unquoted form alike,
maps the extracted name case-insensitively through the known-alias table
(US-ASCII to ascii, ISO-8859-1 to latin1, UTF-8 to utf8, UTF-16LE to
utf16le), and passes an unmapped name unchanged to the decoder. -/
theorem C3_charset_extraction_and_mapping (b name : String)
    (hb : ';' ∉ b.toList) (hne : name.toList ≠ [])
    (hq : '"' ∉ name.toList) (hs : ';' ∉ name.toList) :
    execCharset (b ++ ";charset=" ++ name).toList = some name ∧
    execCharset (b ++ ";charset=\"" ++ name ++ "\"").toList = some name ∧
    (jsToUpper name = "US-ASCII" → resolveEncodingName name = "ascii") ∧
    (jsToUpper name = "ISO-8859-1" → resolveEncodingName name = "latin1") ∧
    (jsToUpper name = "UTF-8" → resolveEncodingName name = "utf8") ∧
    (jsToUpper name = "UTF-16LE" → resolveEncodingName name = "utf16le") ∧
    (jsToUpper name ≠ "US-ASCII" → jsToUpper name ≠ "ISO-8859-1" →
      jsToUpper name ≠ "UTF-8" → jsToUpper name ≠ "UTF-16LE" →
      resolveEncodingName name = name) := by
  refine ⟨?_, ?_, ?_, ?_, ?_, ?_, ?_⟩
  · have hsplit : (b ++ ";charset=" ++ name).toList =
        b.data ++ (';' :: (charsetLit ++ name.data)) := by
      show (b ++ ";charset=" ++ name).data = _
      rw [String.data_append, String.data_append,
        show (";charset=").data = ';' :: charsetLit from rfl]
      simp [List.append_assoc]
    rw [hsplit, execCharset_skip b.data _ hb,
      execCharset_cons_found _ _ (tryCharsetAt_unquoted name.data hne hq hs)]
  · have hsplit : (b ++ ";charset=\"" ++ name ++ "\"").toList =
        b.data ++ (';' :: (charsetLit ++ '"' :: (name.data ++ ['"']))) := by
      show (b ++ ";charset=\"" ++ name ++ "\"").data = _
      rw [String.data_append, String.data_append, String.data_append,
        show (";charset=\"").data = ';' :: (charsetLit ++ ['"']) from rfl,
        show ("\"").data = ['"'] from rfl]
      simp [List.append_assoc]
    rw [hsplit, execCharset_skip b.data _ hb,
      execCharset_cons_found _ _ (tryCharsetAt_quoted name.data hne hq)]
  · intro h; simp only [resolveEncodingName, h]; rfl
  · intro h; simp only [resolveEncodingName, h]; rfl
  · intro h; simp only [resolveEncodingName, h]; rfl
  · intro h; simp only [resolveEncodingName, h]; rfl
  · intro h1 h2 h3 h4
    simp [resolveEncodingName, CHARSETS_MAP, h1, h2, h3, h4]

/-- Claim C3 witness: a concrete content type with a mixed-case unquoted
charset name resolves through the alias table case-insensitively. -/
theorem C3_charset_extraction_witness :
    (';' ∉ "text/plain".toList) ∧ ("Utf-8".toList ≠ []) ∧
    ('"' ∉ "Utf-8".toList) ∧ (';' ∉ "Utf-8".toList) ∧
    execCharset ("text/plain" ++ ";charset=" ++ "Utf-8").toList = some "Utf-8" ∧
    execCharset ("text/plain" ++ ";charset=\"" ++ "Utf-8" ++ "\"").toList = some "Utf-8" ∧
    resolveEncodingName "Utf-8" = "utf8" := by
  have h := C3_charset_extraction_and_mapping "text/plain" "Utf-8"
    (by decide) (by decide) (by decide) (by decide)
  exact ⟨by decide, by decide, by decide, by decide, h.1, h.2.1, h.2.2.2.2.1 (by decide)⟩

/-- Claim C9: for every input byte buffer, when the charset regex does
not match the content-type header the reference text deserializer decodes
the bytes as UTF-8. -/
theorem C9_no_charset_defaults_to_utf8 (data : List Nat) (ctype : String)
    (h : execCharset ctype.toList = none) :
    TEXT_DESERIALIZER data ctype =
      Except.ok (JsVal.obj [("text", JsVal.str (String.mk (utf8DecodeList data)))]) := by
  simp only [TEXT_DESERIALIZER, h]
  rfl

/-- Claim C9 witness: a content-type header without a charset parameter
makes the deserializer decode concrete bytes as UTF-8. -/
theorem C9_no_charset_witness :
    execCharset "text/plain".toList = none ∧
    TEXT_DESERIALIZER [0x68, 0x69] "text/plain" =
      Except.ok (JsVal.obj [("text", JsVal.str "hi")]) :=
  ⟨by decide, C9_no_charset_defaults_to_utf8 [0x68, 0x69] "text/plain" (by decide)⟩


/-- Claim C4: a ServiceResponse raised from any stage (deserializer,
authenticator or handler) aborts the remaining stages and is emitted with
exactly its status and entity, while any other stage failure is
normalized at the stage boundary to the generic 500 response, whose body
is a constant independent of the failure detail. -/
theorem C4_raised_response_short_circuits (st : PipelineStages) (req : Request) :
    (∀ r, st.deserialize req = StageResult.raisedResp r → runPipeline st req = r) ∧
    (∀ e r, st.deserialize req = StageResult.next e →
      st.authenticate req e = StageResult.raisedResp r → runPipeline st req = r) ∧
    (∀ e a r, st.deserialize req = StageResult.next e →
      st.authenticate req e = StageResult.next a →
      st.handle req e a = StageResult.raisedResp r → runPipeline st req = r) ∧
    (∀ d, st.deserialize req = StageResult.failed d →
      runPipeline st req = INTERNAL_SERVER_ERROR) ∧
    (∀ e d, st.deserialize req = StageResult.next e →
      st.authenticate req e = StageResult.failed d →
      runPipeline st req = INTERNAL_SERVER_ERROR) ∧
    (∀ e a d, st.deserialize req = StageResult.next e →
      st.authenticate req e = StageResult.next a →
      st.handle req e a = StageResult.failed d →
      runPipeline st req = INTERNAL_SERVER_ERROR) := by
  refine ⟨?_, ?_, ?_, ?_, ?_, ?_⟩
  · intro r h; simp [runPipeline, h]
  · intro e r h1 h2; simp [runPipeline, h1, h2]
  · intro e a r h1 h2 h3; simp [runPipeline, h1, h2, h3]
  · intro d h; simp [runPipeline, h]
  · intro e d h1 h2; simp [runPipeline, h1, h2]
  · intro e a d h1 h2 h3; simp [runPipeline, h1, h2, h3]

/-- Claim C4 witness: a deserializer that raises a 418 response makes the
pipeline emit exactly that response even though the later stages would
produce a 200. -/
theorem C4_raised_response_witness :
    demoRaisingStages.deserialize demoRequest = StageResult.raisedResp { statusCode := 418 } ∧
    runPipeline demoRaisingStages demoRequest = { statusCode := 418 } :=
  ⟨rfl, (C4_raised_response_short_circuits demoRaisingStages demoRequest).1
    { statusCode := 418 } rfl⟩

/-- Claim C5: constructing a response through createResponse requires a
numeric status in the range 100 to 599; the constructed response carries
exactly the argument as its status, and neither setHeader nor setEntity
can change it afterwards. -/
theorem C5_create_response_status (s : Int) :
    (100 ≤ s → s ≤ 599 →
      ∃ r, createResponse s = Except.ok r ∧ r.statusCode = s ∧
        (∀ n v, (r.setHeader n v).statusCode = s) ∧
        (∀ e, (r.setEntity e).statusCode = s)) ∧
    ((s < 100 ∨ 599 < s) →
      createResponse s = Except.error "invalid HTTP response status code") := by
  constructor
  · intro h1 h2
    refine ⟨{ statusCode := s }, ?_, rfl, fun n v => rfl, fun e => rfl⟩
    simp [createResponse, mkServiceResponse, h1, h2]
  · intro h
    rw [createResponse, mkServiceResponse, if_neg]
    rintro ⟨h1, h2⟩
    omega

/-- Claim C5 witness: status 200 constructs a response whose status stays
200 under setHeader and setEntity. -/
theorem C5_create_response_witness :
    (100 : Int) ≤ 200 ∧ (200 : Int) ≤ 599 ∧
    ∃ r, createResponse 200 = Except.ok r ∧ r.statusCode = 200 ∧
      (∀ n v, (r.setHeader n v).statusCode = 200) ∧
      (∀ e, (r.setEntity e).statusCode = 200) :=
  ⟨by decide, by decide,
    (C5_create_response_status 200).1 (by decide) (by decide)⟩

/-- Claim C6: a lookup in the caching actors registry returns a cached
entry only while the current instant is before the entry's expiration;
no expired entry is ever returned. -/
theorem C6_no_expired_entry_returned (s : RegState) (k : String) (now : Nat) (a : Actor)
    (h : (lookupStep s k now).2 = LookupOutcome.hit a) :
    ∃ exp, s.slot k = some (CacheSlot.cachedSlot a exp) ∧ now < exp := by
  cases hs : s.slot k with
  | none => simp [lookupStep, hs] at h
  | some slot =>
    cases slot with
    | pendingSlot w => simp [lookupStep, hs] at h
    | cachedSlot a2 exp =>
      by_cases hlt : now < exp
      · simp [lookupStep, hs, hlt] at h
        subst h
        exact ⟨exp, rfl, hlt⟩
      · simp [lookupStep, hs, hlt] at h

/-- Claim C6 witness: a fresh cached entry is returned before its
expiration and its expiration lies after the lookup instant. -/
theorem C6_no_expired_witness :
    (lookupStep demoCachedState "alice" 5).2 = LookupOutcome.hit { id := "actor-1" } ∧
    ∃ exp, demoCachedState.slot "alice" = some (CacheSlot.cachedSlot { id := "actor-1" } exp) ∧
      5 < exp :=
  ⟨rfl, C6_no_expired_entry_returned demoCachedState "alice" 5 { id := "actor-1" } rfl⟩

/-- Claim C7: n interleaved lookups of a not-yet-cached key issue exactly
one underlying verification call; resolving delivers the one Actor to all
n callers and caches it, while a rejection is delivered identically to
all n callers and caches nothing. -/
theorem C7_single_flight_coalescing (s : RegState) (k : String) (now : Nat) (n : Nat)
    (a : Actor) (exp : Nat) (r : ServiceResponse)
    (h : s.slot k = none) (hn : 1 ≤ n) :
    (lookupN s k now n).verifyCalls k = s.verifyCalls k + 1 ∧
    (resolveStep (lookupN s k now n) k a exp).2 = List.replicate n a ∧
    (resolveStep (lookupN s k now n) k a exp).1.slot k =
      some (CacheSlot.cachedSlot a exp) ∧
    (rejectStep (lookupN s k now n) k r).2 = List.replicate n r ∧
    (rejectStep (lookupN s k now n) k r).1.slot k = none := by
  obtain ⟨hslot, hcalls⟩ := lookupN_pending s k now h n hn
  refine ⟨hcalls, ?_, ?_, ?_, ?_⟩
  · simp [resolveStep, hslot]
  · simp [resolveStep, hslot]
  · simp [rejectStep, hslot]
  · simp [rejectStep, hslot]

/-- Claim C7 witness: three interleaved lookups of one fresh key issue a
single verification call, all three callers get the one Actor on
resolution, and a rejection is delivered to all three uncached. -/
theorem C7_single_flight_witness :
    demoEmptyState.slot "alice" = none ∧ 1 ≤ 3 ∧
    (lookupN demoEmptyState "alice" 0 3).verifyCalls "alice" = 0 + 1 ∧
    (resolveStep (lookupN demoEmptyState "alice" 0 3) "alice" { id := "actor-1" } 10).2 =
      List.replicate 3 { id := "actor-1" } ∧
    (rejectStep (lookupN demoEmptyState "alice" 0 3) "alice" { statusCode := 401 }).1.slot
      "alice" = none := by
  have h := C7_single_flight_coalescing demoEmptyState "alice" 0 3 { id := "actor-1" } 10
    { statusCode := 401 } rfl (by decide)
  exact ⟨rfl, by decide, h.1, h.2.1, h.2.2.2.2⟩

/-- Claim C8: the authenticator chain advances past a not-applicable
attempt, short-circuits at the first resolved Actor regardless of the
remaining authenticators, and an exhausted chain of not-applicable
attempts proceeds as anonymous. -/
theorem C8_auth_chain_behavior (auth : Request → AuthResult)
    (rest chain : List (Request → AuthResult)) (req : Request) (a : Actor) :
    (auth req = AuthResult.notApplicable →
      runAuthChain (auth :: rest) req = runAuthChain rest req) ∧
    (auth req = AuthResult.resolved a →
      runAuthChain (auth :: rest) req = Except.ok (some a)) ∧
    ((∀ f ∈ chain, f req = AuthResult.notApplicable) →
      runAuthChain chain req = Except.ok none) := by
  refine ⟨?_, ?_, fun h => runAuthChain_all_na chain req h⟩
  · intro h; simp [runAuthChain, h]
  · intro h; simp [runAuthChain, h]

/-- Claim C8 witness: a chain whose first authenticator is
not-applicable and whose second resolves an Actor produces that Actor
with no authenticator after the second consulted. -/
theorem C8_auth_chain_witness :
    demoAuthNA demoRequest = AuthResult.notApplicable ∧
    demoAuthResolve demoRequest = AuthResult.resolved { id := "actor-1" } ∧
    runAuthChain [demoAuthNA, demoAuthResolve] demoRequest =
      Except.ok (some { id := "actor-1" }) := by
  refine ⟨rfl, rfl, ?_⟩
  rw [(C8_auth_chain_behavior demoAuthNA [demoAuthResolve] [] demoRequest
    { id := "actor-1" }).1 rfl]
  exact (C8_auth_chain_behavior demoAuthResolve [] [] demoRequest
    { id := "actor-1" }).2.1 rfl

/-- Claim C10: isResponse accepts every value constructed by
createResponse and rejects every value that is not an instance of the
ServiceResponse constructor, plain look-alike objects, null and undefined
included. -/
theorem C10_is_response_discrimination (s : Int) (v : JsAny) :
    (∀ r, createResponse s = Except.ok r → isResponse (JsAny.respVal r) = true) ∧
    ((∀ r, v ≠ JsAny.respVal r) → isResponse v = false) := by
  constructor
  · intro r _; rfl
  · intro h
    cases v with
    | respVal r => exact absurd rfl (h r)
    | objVal fields => rfl
    | strVal s2 => rfl
    | numVal n => rfl
    | boolVal b => rfl
    | nullVal => rfl
    | undefVal => rfl

/-- Claim C10 witness: a constructed 200 response is recognized while a
plain object with a status field, null and undefined are rejected. -/
theorem C10_is_response_witness :
    createResponse 200 = Except.ok { statusCode := 200 } ∧
    isResponse (JsAny.respVal { statusCode := 200 }) = true ∧
    isResponse (JsAny.objVal [("status", JsVal.num 200)]) = false ∧
    isResponse JsAny.nullVal = false ∧
    isResponse JsAny.undefVal = false := by
  refine ⟨rfl, ?_, ?_, ?_, ?_⟩
  · exact (C10_is_response_discrimination 200 JsAny.nullVal).1 { statusCode := 200 } rfl
  · exact (C10_is_response_discrimination 200
      (JsAny.objVal [("status", JsVal.num 200)])).2 (fun r h => by cases h)
  · exact (C10_is_response_discrimination 200 JsAny.nullVal).2 (fun r h => by cases h)
  · exact (C10_is_response_discrimination 200 JsAny.undefVal).2 (fun r h => by cases h)
